import Mathlib

/-!
Shallow embedding of the Scraper_news repository (src/scraper.py) and proofs
about its extraction engine.

The embedding models the pure data flow of `Scraper`: parsed pages are given as
structured inputs (selected elements with their attributes), network and browser
behaviour is abstracted by explicit oracles, and Python exceptions are modelled
with `Except`.  Persistence (MongoDB inserts) mirrors the returned lists and is
not modelled separately; logging is ignored.
-/

set_option autoImplicit false

namespace NewsScraper

/-- Embedding of Python `s.startswith(p)`: character-level test that `p` is an
initial segment of `s`. -/
def pyStartswith (s p : String) : Bool := p.data.isPrefixOf s.data

/-- Embedding of Python `s.endswith(p)`. -/
def pyEndswith (s p : String) : Bool := p.data.isSuffixOf s.data

/-- Helper for `pyIn`: scan every suffix of the haystack. -/
def pyInAux (needle : List Char) : List Char → Bool
  | [] => needle.isPrefixOf ([] : List Char)
  | c :: rest => needle.isPrefixOf (c :: rest) || pyInAux needle rest

/-- Embedding of the Python substring test `needle in hay` on strings. -/
def pyIn (needle hay : String) : Bool := pyInAux needle.data hay.data

/-- Embedding of Python `s.strip()` with no argument: remove leading and
trailing whitespace, working on the character list. -/
def pyStrip (s : String) : String :=
  String.mk (((s.data.dropWhile Char.isWhitespace).reverse.dropWhile
    Char.isWhitespace).reverse)

/-- Embedding of Python `s.lower()`: lowercase every character. -/
def pyLower (s : String) : String := String.mk (s.data.map Char.toLower)

/-- Embedding of Python slicing `s[n:]`: drop the first `n` characters. -/
def pyDrop (s : String) (n : Nat) : String := String.mk (s.data.drop n)

/-- Embedding of Python `sep.join(parts)`. -/
def pyJoin (sep : String) : List String → String
  | [] => ""
  | [x] => x
  | x :: y :: rest => x ++ sep ++ pyJoin sep (y :: rest)

/-- Python exceptions that the scraper code can raise, plus the spec's
`FetchError` (used only by the spec-side contract `webdriver_fetch_spec`). -/
inductive PyError where
  | attributeError
  | nameError
  | typeError
  | connectionError
  | fetchError
deriving Repr, DecidableEq

/- ### PageFetcher -/

/-- Which fetch strategy `Scraper.get_page_content` dispatches to. -/
inductive FetchStrategy where
  | httpGet
  | webdriver
deriving Repr, DecidableEq

/-- Embedding of the dispatch in `Scraper.get_page_content` (scraper.py:144-151):
`get_request_content` (plain HTTP GET) iff the resource name equals `'tsn.ua'`,
otherwise the shared browser session (`get_webdriver_content`). -/
def get_page_content (resource_name : String) : FetchStrategy :=
  if resource_name = "tsn.ua" then FetchStrategy.httpGet else FetchStrategy.webdriver

/-- State of the selenium driver visible to the scraper: its current page source. -/
structure Driver where
  page_source : String
deriving Repr, DecidableEq

/-- Embedding of `Scraper.init_webdriver`: a fresh headless session sitting on
its initial blank page (modelled as the empty page source). -/
def init_webdriver : Driver := { page_source := "" }

/-- Embedding of `Scraper.get_webdriver_content` (scraper.py:165-174).
`render url` is the page source the browser would show after successfully
navigating to `url`; `navFaults` abstracts whether `self.driver.get(url)`
raises `WebDriverException`.  On a fault the code replaces `self.driver` with a
fresh session and then immediately reads `self.driver.page_source` — it does
not call `get` again. -/
def get_webdriver_content (render : String → String) (navFaults : Bool)
    (driver : Driver) (url : String) : Driver × String :=
  if navFaults then (init_webdriver, init_webdriver.page_source)
  else ({ page_source := render url }, render url)

/-- Modelled from the spec: the claimed DYNAMIC-fetch contract (spec section 4.1)
for comparison with `get_webdriver_content`.  On a navigation fault restart a
fresh session and retry the same URL exactly once, returning that page's
content; surface `FetchError` only if the retry also fails. -/
def webdriver_fetch_spec (render : String → String) (navFaults retryFaults : Bool)
    (driver : Driver) (url : String) : Except PyError (Driver × String) :=
  if navFaults then
    if retryFaults then Except.error PyError.fetchError
    else Except.ok ({ page_source := render url }, render url)
  else Except.ok ({ page_source := render url }, render url)

/- ### Category discovery -/

/-- A selected HTML element as seen by `gather_categories`: its `href`
attribute (absent gives Python `None`) and its visible text. -/
structure Elem where
  href : Option String
  text : String
deriving Repr, DecidableEq

/-- A category record as built by `gather_categories`. -/
structure Category where
  link : String
  name : String
deriving Repr, DecidableEq

/-- Embedding of `str(item.attrs.get('href'))` (scraper.py:214): Python
`str(None)` is the string `"None"`. -/
def strOfHref : Option String → String
  | some s => s
  | none => "None"

/-- The link normalization of `gather_categories` (scraper.py:217-218): any
link that does not start with `https:` gets the `https:` scheme prefixed. -/
def gatherLink (link : String) : String :=
  if pyStartswith link "https:" then link else "https:" ++ link

/-- Embedding of the loop of `Scraper.gather_categories` (scraper.py:208-224):
skip elements whose link starts with `javascript`, normalize the rest with
`gatherLink`, and record the stripped visible text as the category name.
The list returned is also what `insert_many_to_collection` persists. -/
def gather_categories : List Elem → List Category
  | [] => []
  | item :: rest =>
    if pyStartswith (strOfHref item.href) "javascript" then gather_categories rest
    else { link := gatherLink (strOfHref item.href), name := pyStrip item.text }
        :: gather_categories rest

/- ### Resource A (ukr.net) single-pass article extraction -/

/-- A selected `div.im-tl a` element of a ukr.net listing page: its `href`
attribute and its first content node `item.contents[0]` (the anchors selected
here are text anchors, so the first content node is a string). -/
structure UElem where
  href : Option String
  contents0 : String
deriving Repr, DecidableEq

/-- An article record as built by `get_ukrnet_articles`. -/
structure UArticle where
  link : String
  category : String
  content : String
deriving Repr, DecidableEq

/-- The link handling of `get_ukrnet_articles` (scraper.py:264-265): a leading
`//` is stripped (`link = link[2:]`); nothing else is changed. -/
def ukrnetLink (link : String) : String :=
  if pyStartswith link "//" then pyDrop link 2 else link

/-- Embedding of the loop of `Scraper.get_ukrnet_articles` (scraper.py:260-273):
while `count <= limit`, build an article from the current element and append it
(`link.startswith` on a missing `href` raises `AttributeError`); otherwise
break.  `count` is incremented after each processed element. -/
def ukrnetLoop (limit : Nat) (category_name : String) :
    Nat → List UElem → Except PyError (List UArticle)
  | _, [] => Except.ok []
  | count, item :: rest =>
    if count ≤ limit then
      match item.href with
      | none => Except.error PyError.attributeError
      | some link0 =>
        (ukrnetLoop limit category_name (count + 1) rest).map
          (fun tail =>
            { link := ukrnetLink link0, category := category_name,
              content := item.contents0 } :: tail)
    else Except.ok []

/-- Embedding of `Scraper.get_ukrnet_articles` (scraper.py:251-275): run the
collection loop starting from `count = 0`.  Each appended article is also
persisted via `insert_one_to_collection`; the returned list mirrors that. -/
def get_ukrnet_articles (limit : Nat) (category_name : String)
    (all_articles : List UElem) : Except PyError (List UArticle) :=
  ukrnetLoop limit category_name 0 all_articles

/- ### Resource B (tsn.ua) two-pass article extraction -/

/-- A selected `div.c-entry-embed a.c-post-img-wrap` element of a tsn.ua
listing page: its `href` attribute, and its `img` child (`none` when
`item.find('img')` is Python `None`, in which case `.get('src')` raises
`AttributeError`; otherwise the img's optional `src` attribute). -/
structure TElem where
  href : Option String
  img : Option (Option String)
deriving Repr, DecidableEq

/-- A first-pass record of `get_tsn_articles` (the temporary `data` storage). -/
structure TsnData where
  link : String
  img_src : Option String
  category : String
deriving Repr, DecidableEq

/-- A parsed tsn.ua article page as consumed by the second pass of
`get_tsn_articles`: the texts of the `div.e-content p` paragraphs, the joined
contents of each `div.c-post-meta h1` header, and whether the page has a
`figure.js-lightgallery` element. -/
structure TsnPage where
  paragraphs : List String
  headers : List String
  hasFigure : Bool
deriving Repr, DecidableEq

/-- The final article record (`news_chunk`) built by `get_tsn_articles`. -/
structure NewsChunk where
  category : String
  link : String
  title : String
  content : String
  images : List String
deriving Repr, DecidableEq

/-- Embedding of `Scraper.download_image` (scraper.py:122-132): `requests.get`
either succeeds (`downloadOk image_url`) or raises a connection error; the
function has no exception handler, so a failure propagates to the caller.
The local file written on success is irrelevant to the claims and not
modelled. -/
def download_image (downloadOk : String → Bool) (image_url : String) :
    Except PyError Unit :=
  if downloadOk image_url then Except.ok () else Except.error PyError.connectionError

/-- Embedding of the body of the first-pass loop of `get_tsn_articles`
(scraper.py:294-305) for one element: read `href` and the img's `src` (an
absent anchor `href` or absent img child raises `AttributeError`), keep only
`.html` links, and for a truthy `img_src` that is neither a data URI nor a
script pseudo-URL record it and download it (a download failure propagates).
Returns the record appended to `data`, or `none` when the element is skipped. -/
def tsnFirstItem (downloadOk : String → Bool) (category_name : String)
    (item : TElem) : Except PyError (Option TsnData) :=
  match item.href with
  | none => Except.error PyError.attributeError
  | some link =>
    match item.img with
    | none => Except.error PyError.attributeError
    | some img_src =>
      if pyEndswith link ".html" then
        match img_src with
        | some s =>
          if s ≠ "" then
            if ¬ (pyStartswith s "data:image" || pyStartswith s "javascript") then
              (download_image downloadOk s).map
                (fun _ => some { link := link, img_src := some s, category := category_name })
            else Except.ok (some { link := link, img_src := none, category := category_name })
          else Except.ok (some { link := link, img_src := none, category := category_name })
        | none => Except.ok (some { link := link, img_src := none, category := category_name })
      else Except.ok none

/-- Embedding of the first-pass loop of `get_tsn_articles` (scraper.py:282-308):
while `count <= limit`, process the element with `tsnFirstItem`; otherwise
break.  `count` is incremented for every processed element, appended or not. -/
def tsnFirst (limit : Nat) (downloadOk : String → Bool) (category_name : String) :
    Nat → List TElem → Except PyError (List TsnData)
  | _, [] => Except.ok []
  | count, item :: rest =>
    if count ≤ limit then
      match tsnFirstItem downloadOk category_name item with
      | Except.error e => Except.error e
      | Except.ok entry =>
        (tsnFirst limit downloadOk category_name (count + 1) rest).map
          (fun tail =>
            match entry with
            | some d => d :: tail
            | none => tail)
    else Except.ok []

/-- Embedding of the second-pass loop of `get_tsn_articles` (scraper.py:311-343).
The `Option String` state is the Python local `header_text`, which is assigned
only when a page has a header and therefore keeps its previous value (or is
unbound) otherwise: reading it unbound raises `NameError`.  A page with a
`figure.js-lightgallery` element raises `TypeError` first, because the code
calls `.startswith` on the bs4 Tag (`article_image.startswith(...)`), which
resolves to `None` and is then called. -/
def tsnSecond (pages : String → TsnPage) :
    Option String → List TsnData → Except PyError (List NewsChunk)
  | _, [] => Except.ok []
  | headerSt, article :: rest =>
    if (pages article.link).hasFigure then Except.error PyError.typeError
    else
      match (match (pages article.link).headers with
             | h :: _ => some h
             | [] => headerSt) with
      | none => Except.error PyError.nameError
      | some header_text =>
        (tsnSecond pages
            (match (pages article.link).headers with
             | h :: _ => some h
             | [] => headerSt) rest).map
          (fun tail =>
            { category := article.category, link := article.link,
              title := header_text,
              content := pyJoin " " (pages article.link).paragraphs,
              images :=
                match article.img_src with
                | some s => [s]
                | none => [] } :: tail)

/-- Embedding of `Scraper.get_tsn_articles` (scraper.py:277-346): first pass
over the listing page starting at `count = 0`, then second pass over the
collected `data` with the local `header_text` initially unbound.  Each
`news_chunk` is also persisted via `insert_one_to_collection`; the returned
list mirrors that. -/
def get_tsn_articles (limit : Nat) (downloadOk : String → Bool)
    (pages : String → TsnPage) (category_name : String)
    (all_articles : List TElem) : Except PyError (List NewsChunk) :=
  match tsnFirst limit downloadOk category_name 0 all_articles with
  | Except.error e => Except.error e
  | Except.ok data => tsnSecond pages none data

/- ### search_by_category orchestration -/

/-- Result of `Scraper.search_by_category`: the Python value `False` when no
category matches (`CategoryNotFound`), otherwise the article list of the
resource-specific extraction path. -/
inductive SearchResult where
  | categoryNotFound
  | ukrArticles (arts : List UArticle)
  | tsnArticles (arts : List NewsChunk)
deriving Repr, DecidableEq

/-- The external world as seen by one `search_by_category` call: the selected
elements of the two category index pages, the parsed listing page behind every
category link, the parsed tsn article pages, and the download oracle. -/
structure Env where
  tsnCatElems : List Elem
  ukrnetCatElems : List Elem
  ukrnetListing : String → List UElem
  tsnListing : String → List TElem
  tsnPages : String → TsnPage
  downloadOk : String → Bool

/-- The candidate list built by `search_by_category` (scraper.py:232-234):
tsn categories first, then ukr.net categories. -/
def category_list_of (env : Env) : List Category :=
  gather_categories env.tsnCatElems ++ gather_categories env.ukrnetCatElems

/-- Embedding of `Scraper.search_by_category` (scraper.py:226-249).  The input
name is lowercased once (`category_name.decode('utf-8').lower()`) and used for
the lookup and as the stored category name; here `.toLower` is applied at each
use site, which is equivalent.  The first category whose lowercased name equals
it wins (`next(...)`); `StopIteration` is caught and `False`
(`categoryNotFound`) returned.  Dispatch is by substring test `'ukr.net' in
link`. -/
def search_by_category (env : Env) (limit : Nat) (category_name : String) :
    Except PyError SearchResult :=
  match (category_list_of env).find?
      (fun item => pyLower item.name == pyLower category_name) with
  | none => Except.ok SearchResult.categoryNotFound
  | some category_obj =>
    if pyIn "ukr.net" category_obj.link then
      (get_ukrnet_articles limit (pyLower category_name)
        (env.ukrnetListing category_obj.link)).map SearchResult.ukrArticles
    else
      (get_tsn_articles limit env.downloadOk env.tsnPages (pyLower category_name)
        (env.tsnListing category_obj.link)).map SearchResult.tsnArticles

/- ### website_search_by_text -/

/-- An anchor element returned by `soup.find_all('a', text=re.compile(...))`:
its `href` attribute and its text (`item.contents[0]`). -/
structure Anchor where
  href : Option String
  txt : String
deriving Repr, DecidableEq

/-- The observable value of the `article` dict of `website_search_by_text`
after one matching anchor has been processed (each match assigns all three
keys). -/
structure TextRecord where
  link : Option String
  category : String
  content : String
deriving Repr, DecidableEq

/-- Mutable state of `website_search_by_text`, with Python object identity made
explicit: `heap` holds the dicts that have been allocated (`none` is a dict no
key of which has been assigned yet), and `resultAddrs` is the `result` list as
a list of heap addresses (indices), since `result.append(article)` appends a
reference, not a copy. -/
structure TsState where
  heap : List (Option TextRecord)
  resultAddrs : List Nat
deriving Repr, DecidableEq

/-- The three key assignments performed on the shared `article` dict for one
matching anchor (scraper.py:382-384): `link` from the anchor's `href`,
`category` from the enclosing category, `content` from the stripped anchor
text. -/
def textRecordOf (cat : Category) (item : Anchor) : TextRecord :=
  { link := item.href, category := cat.name, content := pyStrip item.txt }

/-- Embedding of one iteration of the outer loop of
`Scraper.website_search_by_text` (scraper.py:366-386): a single `article = {}`
dict is allocated (at address `st.heap.length`) before the matching anchors of
the category's listing page are enumerated; every match overwrites that same
dict's keys and appends the same reference to `result`.  `matchesText`
abstracts the `re.compile(text_searched)` pattern test of `find_all`; the
resource dispatch on the link only selects the fetch method and is absorbed by
`pages`. -/
def textStep (matchesText : String → Bool) (pages : String → List Anchor)
    (st : TsState) (cat : Category) : TsState :=
  ((pages cat.link).filter (fun item => matchesText item.txt)).foldl
    (fun st' item =>
      { heap := st'.heap.set st.heap.length (some (textRecordOf cat item)),
        resultAddrs := st'.resultAddrs ++ [st.heap.length] })
    { heap := st.heap ++ [none], resultAddrs := st.resultAddrs }

/-- Embedding of `Scraper.website_search_by_text` (scraper.py:359-387): fold
the per-category step over all passed category links, starting from an empty
heap and an empty `result`. -/
def website_search_by_text (matchesText : String → Bool)
    (pages : String → List Anchor) (category_links : List Category) : TsState :=
  category_links.foldl (textStep matchesText pages)
    { heap := [], resultAddrs := [] }

/- ### Helper lemmas -/

/-- Anything obtained by prefixing `https:` starts with `https:`. -/
lemma pyStartswith_https_append (s : String) :
    pyStartswith ("https:" ++ s) "https:" = true := by
  unfold pyStartswith
  have h : ("https:" ++ s).data = 'h' :: 't' :: 't' :: 'p' :: 's' :: ':' :: s.data := rfl
  have h2 : "https:".data = ['h', 't', 't', 'p', 's', ':'] := rfl
  rw [h, h2]
  simp [List.isPrefixOf_cons₂]

/-- Anything obtained by prefixing `https:` does not start with `javascript`. -/
lemma pyStartswith_https_append_javascript (s : String) :
    pyStartswith ("https:" ++ s) "javascript" = false := by
  unfold pyStartswith
  have h : ("https:" ++ s).data = 'h' :: 't' :: 't' :: 'p' :: 's' :: ':' :: s.data := rfl
  have h2 : "javascript".data = ['j', 'a', 'v', 'a', 's', 'c', 'r', 'i', 'p', 't'] := rfl
  rw [h, h2]
  simp [List.isPrefixOf_cons₂]

/-- The normalized category link always starts with `https:`. -/
lemma gatherLink_startsWith_https (link : String) :
    pyStartswith (gatherLink link) "https:" = true := by
  cases hl : pyStartswith link "https:" with
  | true => simp [gatherLink, hl]
  | false => simp [gatherLink, hl, pyStartswith_https_append]

/-- Normalization cannot introduce a `javascript` pseudo-URL. -/
lemma gatherLink_not_javascript (link : String)
    (h : pyStartswith link "javascript" = false) :
    pyStartswith (gatherLink link) "javascript" = false := by
  cases hl : pyStartswith link "https:" with
  | true => simp [gatherLink, hl, h]
  | false => simp [gatherLink, hl, pyStartswith_https_append_javascript]

/-- Any successful run of the ukr.net collection loop started at `count`
returns at most `limit + 1 - count` articles (the guard is the inclusive
`count <= limit`). -/
lemma ukrnetLoop_length_le (limit : Nat) (cat : String) :
    ∀ (items : List UElem) (count : Nat) (arts : List UArticle),
      ukrnetLoop limit cat count items = Except.ok arts →
      arts.length ≤ limit + 1 - count := by
  intro items
  induction items with
  | nil =>
    intro count arts h
    simp only [ukrnetLoop, Except.ok.injEq] at h
    subst h
    simp
  | cons item rest ih =>
    intro count arts h
    simp only [ukrnetLoop] at h
    by_cases hcount : count ≤ limit
    · rw [if_pos hcount] at h
      cases hhref : item.href with
      | none => rw [hhref] at h; simp at h
      | some link0 =>
        rw [hhref] at h
        cases hrec : ukrnetLoop limit cat (count + 1) rest with
        | error e => rw [hrec] at h; simp [Except.map] at h
        | ok tail =>
          rw [hrec] at h
          simp only [Except.map, Except.ok.injEq] at h
          subst h
          have htail := ih (count + 1) tail hrec
          simp only [List.length_cons]
          omega
    · rw [if_neg hcount] at h
      simp only [Except.ok.injEq] at h
      subst h
      simp

/- ### C1 -/

/-- C1 counterexample: with `limit = 1` and exactly `limit + 1 = 2` available
listing items, `get_ukrnet_articles` returns 2 articles, exceeding the
configured limit — the inclusive guard `count <= limit` admits `limit + 1`
items. -/
theorem ukrnet_limit_boundary_cex :
    (get_ukrnet_articles 1 "c" [{ href := some "a", contents0 := "x" },
        { href := some "b", contents0 := "y" }]).map List.length = Except.ok 2 ∧
    ¬ ((2 : Nat) ≤ 1) :=
  ⟨by rfl, by omega⟩

/-- C1 (amended): the number of articles returned (and persisted) by a
successful `get_ukrnet_articles` call never exceeds `limit + 1`; the boundary
at `limit + 1` available items is reached, not cut to `limit`. -/
theorem ukrnet_articles_length_le_limit_succ (limit : Nat) (category_name : String)
    (all_articles : List UElem) (arts : List UArticle)
    (h : get_ukrnet_articles limit category_name all_articles = Except.ok arts) :
    arts.length ≤ limit + 1 := by
  have := ukrnetLoop_length_le limit category_name all_articles 0 arts h
  omega

/-- Witness for `ukrnet_articles_length_le_limit_succ` at a concrete input. -/
theorem ukrnet_articles_length_le_limit_succ_witness :
    ([{ link := "u", category := "c", content := "t" }] : List UArticle).length ≤ 0 + 1 :=
  ukrnet_articles_length_le_limit_succ 0 "c" [{ href := some "u", contents0 := "t" }]
    [{ link := "u", category := "c", content := "t" }] (by rfl)

/- ### C5 -/

/-- C5 counterexample: during ukr.net article extraction the protocol-relative
href `//www.ukr.net/news/x` is stored as `www.ukr.net/news/x` — the leading
`//` is stripped and no scheme is added, so the stored link is not
scheme-qualified. -/
theorem ukrnet_protocol_relative_link_cex :
    get_ukrnet_articles 10 "c" [{ href := some "//www.ukr.net/news/x", contents0 := "t" }]
      = Except.ok [{ link := "www.ukr.net/news/x", category := "c", content := "t" }] ∧
    pyStartswith "www.ukr.net/news/x" "https:" = false ∧
    pyStartswith "www.ukr.net/news/x" "http:" = false :=
  ⟨by rfl, by decide, by decide⟩

/-- C5 (amended): in category discovery every stored link is scheme-qualified
(protocol-relative ones get `https:` prefixed), but in ukr.net article
extraction a protocol-relative href merely has its leading two characters
stripped and no scheme is added. -/
theorem link_normalization_amended :
    (∀ (elems : List Elem) (c : Category), c ∈ gather_categories elems →
        pyStartswith c.link "https:" = true) ∧
    (∀ s : String, pyStartswith s "//" = true → ukrnetLink s = pyDrop s 2) := by
  constructor
  · intro elems
    induction elems with
    | nil => intro c hc; simp [gather_categories] at hc
    | cons item rest ih =>
      intro c hc
      cases hjs : pyStartswith (strOfHref item.href) "javascript" with
      | true =>
        simp only [gather_categories, hjs, if_true] at hc
        exact ih c hc
      | false =>
        simp only [gather_categories, hjs, Bool.false_eq_true, if_false,
          List.mem_cons] at hc
        rcases hc with h1 | h1
        · subst h1; exact gatherLink_startsWith_https _
        · exact ih c h1
  · intro s hs
    unfold ukrnetLink
    rw [if_pos hs]

/-- Witness for `link_normalization_amended` at concrete inputs. -/
theorem link_normalization_amended_witness :
    pyStartswith (Category.link { link := "https://x", name := "N" }) "https:" = true ∧
    ukrnetLink "//www.ukr.net/a" = pyDrop "//www.ukr.net/a" 2 := by
  constructor
  · exact link_normalization_amended.1 [{ href := some "//x", text := "N" }]
      { link := "https://x", name := "N" } (by decide)
  · exact link_normalization_amended.2 "//www.ukr.net/a" (by decide)

/- ### C8 -/

/-- C8: category discovery never returns (or persists) a category whose link
starts with the script pseudo-URL prefix `javascript`; such elements are
skipped. -/
theorem gather_categories_no_javascript_link (elems : List Elem) (c : Category)
    (hc : c ∈ gather_categories elems) :
    pyStartswith c.link "javascript" = false := by
  induction elems with
  | nil => simp [gather_categories] at hc
  | cons item rest ih =>
    cases hjs : pyStartswith (strOfHref item.href) "javascript" with
    | true =>
      simp only [gather_categories, hjs, if_true] at hc
      exact ih hc
    | false =>
      simp only [gather_categories, hjs, Bool.false_eq_true, if_false,
        List.mem_cons] at hc
      rcases hc with h1 | h1
      · subst h1; exact gatherLink_not_javascript _ hjs
      · exact ih h1

/-- Witness for `gather_categories_no_javascript_link` at a concrete input. -/
theorem gather_categories_no_javascript_link_witness :
    pyStartswith (Category.link { link := "https://tsn.ua/n", name := "News" })
      "javascript" = false :=
  gather_categories_no_javascript_link
    [{ href := some "https://tsn.ua/n", text := "News" }]
    { link := "https://tsn.ua/n", name := "News" } (by decide)

/- ### C3 -/

/-- C3 counterexample: the first navigation faults and a retry would have
succeeded, yet `get_webdriver_content` returns the fresh session's blank page
source instead of the navigated page's content that the claimed contract
(`webdriver_fetch_spec`) produces. -/
theorem webdriver_no_retry_cex :
    (get_webdriver_content (fun _ => "rendered") true { page_source := "old" } "u").2
      = "" ∧
    webdriver_fetch_spec (fun _ => "rendered") true false { page_source := "old" } "u"
      = Except.ok ({ page_source := "rendered" }, "rendered") ∧
    ("" : String) ≠ "rendered" :=
  ⟨by rfl, by rfl, by decide⟩

/-- C3 (amended): on a driver-level navigation fault `get_webdriver_content`
restarts a fresh browser session but does not retry the navigation: it returns
the fresh session's initial page source, and no error is surfaced; only a
fault-free call returns the requested page's content. -/
theorem webdriver_fault_restart_no_retry (render : String → String)
    (driver : Driver) (url : String) :
    get_webdriver_content render true driver url
      = (init_webdriver, init_webdriver.page_source) ∧
    get_webdriver_content render false driver url
      = ({ page_source := render url }, render url) :=
  ⟨rfl, rfl⟩

/- ### C10 -/

/-- C10: `get_page_content` dispatches by exact string comparison on the
resource name — a page is fetched with a plain HTTP GET iff the resource name
equals `tsn.ua`; every other name is routed to the browser session. -/
theorem get_page_content_http_iff_tsn (resource_name : String) :
    get_page_content resource_name = FetchStrategy.httpGet ↔
      resource_name = "tsn.ua" := by
  unfold get_page_content
  by_cases h : resource_name = "tsn.ua"
  · simp [h]
  · simp [h]

/- ### C2 -/

/-- C2 (code bug): `download_image` has no exception handler, so a network
failure while retrieving an article's listing image aborts the whole tsn
extraction call — the article is absent from any returned sequence because the
call raises instead of returning.  The second conjunct shows the identical
input succeeds when the download works, isolating the download as the cause. -/
theorem tsn_download_failure_aborts_extraction :
    get_tsn_articles 10 (fun _ => false)
        (fun _ => { paragraphs := [], headers := [], hasFigure := false })
        "economy"
        [{ href := some "https://tsn.ua/a.html", img := some (some "https://i/img.jpg") }]
      = Except.error PyError.connectionError ∧
    get_tsn_articles 10 (fun _ => true)
        (fun _ => { paragraphs := ["p1", "p2"], headers := ["T"], hasFigure := false })
        "economy"
        [{ href := some "https://tsn.ua/a.html", img := some (some "https://i/img.jpg") }]
      = Except.ok [{
          category := "economy",
          link := "https://tsn.ua/a.html",
          title := "T",
          content := "p1 p2",
          images := ["https://i/img.jpg"] }] :=
  ⟨by rfl, by rfl⟩

/- ### C4 -/

/-- C4 (code bug): `header_text` is assigned only under `if news_header:`, so
on the first processed article page with no `div.c-post-meta h1` element
reading it raises `NameError` and extraction aborts instead of producing a
record with the title omitted.  The second conjunct shows the stale-binding
variant: after a page with title `T1`, a title-less page silently reuses `T1`
rather than omitting the field. -/
theorem tsn_missing_title_raises_name_error :
    get_tsn_articles 10 (fun _ => true)
        (fun _ => { paragraphs := ["body text"], headers := [], hasFigure := false })
        "economy" [{ href := some "https://tsn.ua/b.html", img := some none }]
      = Except.error PyError.nameError ∧
    get_tsn_articles 10 (fun _ => true)
        (fun l => if l == "https://tsn.ua/a.html"
          then { paragraphs := ["pa"], headers := ["T1"], hasFigure := false }
          else { paragraphs := ["pb"], headers := [], hasFigure := false })
        "economy"
        [{ href := some "https://tsn.ua/a.html", img := some none },
         { href := some "https://tsn.ua/b.html", img := some none }]
      = Except.ok
        [{
          category := "economy",
          link := "https://tsn.ua/a.html",
          title := "T1",
          content := "pa",
          images := [] },
         {
          category := "economy",
          link := "https://tsn.ua/b.html",
          title := "T1",
          content := "pb",
          images := [] }] :=
  ⟨by rfl, by rfl⟩

/- ### C6 -/

/-- C6: when no discovered category name matches the requested name
(case-insensitively), `search_by_category` returns the typed negative result
(Python `False`, `categoryNotFound` here) without crashing, and that result is
distinguishable from an empty article list of either resource. -/
theorem search_by_category_unknown_name_not_found (env : Env) (limit : Nat)
    (name : String)
    (h : ∀ c ∈ category_list_of env, pyLower c.name ≠ pyLower name) :
    search_by_category env limit name = Except.ok SearchResult.categoryNotFound ∧
    SearchResult.categoryNotFound ≠ SearchResult.ukrArticles [] ∧
    SearchResult.categoryNotFound ≠ SearchResult.tsnArticles [] := by
  refine ⟨?_, by simp, by simp⟩
  have hfind : (category_list_of env).find?
      (fun item => pyLower item.name == pyLower name) = none := by
    rw [List.find?_eq_none]
    intro c hc
    simp only [beq_iff_eq]
    exact h c hc
  unfold search_by_category
  rw [hfind]

/-- The trivial environment: both category index pages yield no elements and
all listing pages are empty. -/
def envEmpty : Env where
  tsnCatElems := []
  ukrnetCatElems := []
  ukrnetListing := fun _ => []
  tsnListing := fun _ => []
  tsnPages := fun _ => { paragraphs := [], headers := [], hasFigure := false }
  downloadOk := fun _ => true

/-- Witness for `search_by_category_unknown_name_not_found` at a concrete
environment. -/
theorem search_by_category_unknown_name_not_found_witness :
    search_by_category envEmpty 10 "no-such-category"
      = Except.ok SearchResult.categoryNotFound ∧
    SearchResult.categoryNotFound ≠ SearchResult.ukrArticles [] ∧
    SearchResult.categoryNotFound ≠ SearchResult.tsnArticles [] :=
  search_by_category_unknown_name_not_found envEmpty 10 "no-such-category"
    (by intro c hc; simp [category_list_of, gather_categories, envEmpty] at hc)

/- ### C7 -/

/-- C7: the category lookup is case-insensitive — two requested names that
agree after lowercasing produce identical `search_by_category` results (the
first match in discovery order wins for both). -/
theorem search_by_category_case_insensitive (env : Env) (limit : Nat)
    (s1 s2 : String) (h : pyLower s1 = pyLower s2) :
    search_by_category env limit s1 = search_by_category env limit s2 := by
  unfold search_by_category
  rw [h]

/-- Witness for `search_by_category_case_insensitive` at a concrete input pair
differing only in letter case. -/
theorem search_by_category_case_insensitive_witness :
    search_by_category envEmpty 10 "NEWS" = search_by_category envEmpty 10 "news" :=
  search_by_category_case_insensitive envEmpty 10 "NEWS" "news" (by decide)

/- ### C9 -/

/-- Folding the per-match mutation over the matching anchors overwrites the
same heap cell each time and appends that cell's address once per match. -/
lemma textFold_last (rec : Anchor → TextRecord) (addr : Nat) :
    ∀ (ms : List Anchor) (st : TsState) (a : Anchor), ms.getLast? = some a →
      ms.foldl (fun st' item =>
          { heap := st'.heap.set addr (some (rec item)),
            resultAddrs := st'.resultAddrs ++ [addr] }) st
        = { heap := st.heap.set addr (some (rec a)),
            resultAddrs := st.resultAddrs ++ List.replicate ms.length addr } := by
  intro ms
  induction ms with
  | nil => intro st a h; simp at h
  | cons x t ih =>
    intro st a h
    cases t with
    | nil =>
      simp only [List.getLast?_singleton, Option.some.injEq] at h
      subst h
      simp [List.foldl, List.replicate_succ]
    | cons y t2 =>
      have hlast : (y :: t2).getLast? = some a := by
        rw [← h, List.getLast?_cons_cons]
      rw [List.foldl_cons, ih _ a hlast]
      simp [List.set_set, List.append_assoc, List.replicate_succ,
        List.singleton_append]

/-- C9: in `website_search_by_text` a single record dict is allocated per
category link and mutated across all matching anchors of that category's
listing page — with two or more matches, every reference appended to the
result for that page is the same heap address, and the record stored there
carries the link and content of the last match. -/
theorem text_search_single_record_aliasing (matchesText : String → Bool)
    (pages : String → List Anchor) (st : TsState) (cat : Category) (a : Anchor)
    (hlast : ((pages cat.link).filter (fun item => matchesText item.txt)).getLast?
      = some a)
    (hlen : 2 ≤ ((pages cat.link).filter (fun item => matchesText item.txt)).length) :
    (textStep matchesText pages st cat).resultAddrs
      = st.resultAddrs ++ List.replicate
          ((pages cat.link).filter (fun item => matchesText item.txt)).length
          st.heap.length ∧
    (textStep matchesText pages st cat).heap[st.heap.length]?
      = some (some (textRecordOf cat a)) := by
  unfold textStep
  rw [textFold_last (textRecordOf cat) st.heap.length
    ((pages cat.link).filter (fun item => matchesText item.txt))
    { heap := st.heap ++ [none], resultAddrs := st.resultAddrs } a hlast]
  refine ⟨rfl, ?_⟩
  rw [List.getElem?_set_self (by simp)]

/-- The two-match listing page used by the aliasing witness. -/
def twoMatchPage : List Anchor :=
  [{ href := some "https://l1", txt := "match one" },
   { href := some "https://l2", txt := "match two" }]

/-- Witness for `text_search_single_record_aliasing` at a concrete page with
two matching anchors: both result entries are the same address 0, and the
stored record is that of the second (last) match. -/
theorem text_search_single_record_aliasing_witness :
    (textStep (fun _ => true) (fun _ => twoMatchPage)
        { heap := [], resultAddrs := [] }
        { link := "https://c", name := "C" }).resultAddrs = [0, 0] ∧
    (textStep (fun _ => true) (fun _ => twoMatchPage)
        { heap := [], resultAddrs := [] }
        { link := "https://c", name := "C" }).heap[0]?
      = some (some {
          link := some "https://l2",
          category := "C",
          content := "match two" }) :=
  text_search_single_record_aliasing (fun _ => true) (fun _ => twoMatchPage)
    { heap := [], resultAddrs := [] } { link := "https://c", name := "C" }
    { href := some "https://l2", txt := "match two" } (by decide) (by decide)

end NewsScraper
